import Mathlib

/-!
Verification of the competitive pull-request evaluation core: feature grouping
(`FeatureDetector`), weighted multi-criteria scoring (`PRScorer` together with
`CodeAnalyzer`), and snippet extraction/ranking (`SnippetExtractor`).

Each definition is a shallow embedding of the corresponding JavaScript source
function; doc comments name the source symbol.  JavaScript numbers are modelled
as `ℚ`, JavaScript strings as `String` (processed through their character
lists), and fallible external-collaborator input as `Option` values.
-/

namespace AIWorkflow

/-! ### Text helpers shared by all components -/

/-- Character-level lowercase of a string (JS `String.prototype.toLowerCase`
on the ASCII range). -/
def lowerStr (s : String) : String := String.mk (s.data.map Char.toLower)

/-- JS word character, the regex class `\w` = `[A-Za-z0-9_]`. -/
def isWordChar (c : Char) : Bool := c.isAlphanum || c = '_'

/-- Whether `sub` occurs contiguously inside `l`
(JS `String.prototype.includes`). -/
def listHasInfix (l sub : List Char) : Bool := l.tails.any (fun t => sub.isPrefixOf t)

/-- JS `haystack.includes(needle)`. -/
def strContains (haystack needle : String) : Bool := listHasInfix haystack.data needle.data

/-- Split a string on newline characters, keeping empty pieces
(JS `str.split('\n')`). -/
def splitLines (s : String) : List String := (s.data.splitOnP (fun c => c = '\n')).map String.mk

/-- Join lines with `'\n'` separators (JS `array.join('\n')`). -/
def joinNl (ls : List String) : String := String.intercalate "\n" ls

/-- Strip leading and trailing whitespace (JS `String.prototype.trim`). -/
def trimStr (s : String) : String :=
  String.mk (((s.data.dropWhile Char.isWhitespace).reverse.dropWhile Char.isWhitespace).reverse)

/-- Maximal runs of word characters of a string
(splitting on every non-word character and dropping empty pieces). -/
def wordRuns (s : String) : List (List Char) :=
  (s.data.splitOnP (fun c => !isWordChar c)).filter (fun r => r ≠ [])

/-- The whitespace-separated tokens of a string, lowercased. -/
def tokensOf (s : String) : List String :=
  (((lowerStr s).data.splitOnP (fun c => c.isWhitespace)).filter (fun r => r ≠ [])).map String.mk

/-- The token multiset of a string, for overlap counting. -/
def tokenMultiset (s : String) : Multiset String := (tokensOf s : List String)

/-- Modelled from the spec: the external `similarity` string-similarity library
(an npm dependency whose source is not part of this repository) is specified as
"a normalized string-similarity score (case-insensitive token overlap, 0-1)".
We model it as the Sørensen–Dice coefficient on whitespace tokens; two strings
with no tokens at all count as identical (similarity 1). -/
def strSimilarity (a b : String) : ℚ :=
  if (tokenMultiset a).card + (tokenMultiset b).card = 0 then 1
  else (2 * ((tokenMultiset a) ∩ (tokenMultiset b)).card : ℚ) /
    (((tokenMultiset a).card + (tokenMultiset b).card : ℕ) : ℚ)

/-! ### Feature detector (`FeatureDetector`, src/unnamed/part_002)

`detectRelatedPRs` / `isPRRelated` / `isBranchRelated` / `areLabelsRelated` /
`areTitlesRelated` / `hasFileOverlap` / `groupPRsByFeature` /
`extractFeatureName`. -/

/-- One changed file of a proposal (`FileChange` in the spec): filename,
change status, and the unified-diff text, absent for binary files. -/
structure FileChange where
  filename : String
  status : String
  patch : Option String
deriving DecidableEq

/-- A proposal (a PR) as the feature detector and scorer see it. -/
structure PR where
  number : ℕ
  title : String
  /-- The source branch name (`pr.head.ref`). -/
  branch : String
  labels : List String
  files : List FileChange
deriving DecidableEq

/-- The changed-filename set of a proposal
(JS `new Set(files.map(f => f.filename))`). -/
def fileSet (pr : PR) : Finset String := (pr.files.map (fun f => f.filename)).toFinset

/-- Feature-detection configuration (`config.featureDetection`).  A configured
branch pattern is "a path segment ending in a single wildcard" (spec §4.1,
e.g. `"feature/*"`); we represent each pattern by its stem, the part before
the trailing `*`. -/
structure FeatureDetectionConfig where
  branchPatterns : List String
  titleSimilarityThreshold : ℚ
  fileOverlapThreshold : ℚ
  labelKeywords : List String

/-- The wildcard capture of the JS regex built by
`new RegExp(pattern.replace('*', '(.+)'))` applied unanchored to `branch`:
the first occurrence of the pattern stem that is followed by at least one
character captures everything after the stem. -/
def captureAfter (pat : List Char) : List Char → Option (List Char)
  | [] => none
  | c :: cs =>
    if pat.isPrefixOf (c :: cs) then
      let rest := (c :: cs).drop pat.length
      if rest = [] then captureAfter pat cs else some rest
    else captureAfter pat cs

/-- `isBranchRelated(branch1, branch2)`: some configured branch pattern matches
both branch names and the lowercased wildcard captures have similarity
above the hard-coded `0.6`. -/
def isBranchRelated (patterns : List String) (b1 b2 : String) : Bool :=
  patterns.any fun pat =>
    match captureAfter pat.data b1.data, captureAfter pat.data b2.data with
    | some f1, some f2 =>
        decide ((0.6 : ℚ) < strSimilarity (lowerStr (String.mk f1)) (lowerStr (String.mk f2)))
    | _, _ => false

/-- `areLabelsRelated(pr1, pr2)`: both proposals carry a (lowercased) label
containing the same configured keyword. -/
def areLabelsRelated (keywords : List String) (l1 l2 : List String) : Bool :=
  let labels1 := l1.map lowerStr
  let labels2 := l2.map lowerStr
  keywords.any fun k =>
    labels1.any (fun lab => strContains lab k) && labels2.any (fun lab => strContains lab k)

/-- `areTitlesRelated(title1, title2)`: similarity of the lowercased titles
exceeds the configured threshold. -/
def areTitlesRelated (threshold : ℚ) (t1 t2 : String) : Bool :=
  decide (threshold < strSimilarity (lowerStr t1) (lowerStr t2))

/-- The Jaccard index `intersection.size / union.size` of two filename sets,
as the fraction actually computed by `hasFileOverlap`.  When both sets are
empty the JS division `0/0` evaluates to `NaN`, modelled as `none`. -/
def jaccardIndex (f1 f2 : Finset String) : Option ℚ :=
  if (f1 ∪ f2).card = 0 then none
  else some (((f1 ∩ f2).card : ℚ) / ((f1 ∪ f2).card : ℚ))

/-- `hasFileOverlap(pr1, pr2)` on the two filename sets: the overlap fraction
exceeds the configured threshold.  Every JS comparison with `NaN` is false,
so the `none` case yields `false`. -/
def hasFileOverlap (threshold : ℚ) (f1 f2 : Finset String) : Bool :=
  match jaccardIndex f1 f2 with
  | none => false
  | some r => decide (threshold < r)

/-- `isPRRelated(pr1, pr2)`: branch pattern, shared label keyword, title
similarity, or file overlap. -/
def isPRRelated (cfg : FeatureDetectionConfig) (a b : PR) : Bool :=
  isBranchRelated cfg.branchPatterns a.branch b.branch ||
  areLabelsRelated cfg.labelKeywords a.labels b.labels ||
  areTitlesRelated cfg.titleSimilarityThreshold a.title b.title ||
  hasFileOverlap cfg.fileOverlapThreshold (fileSet a) (fileSet b)

/-- `detectRelatedPRs(currentPR)`: every other open proposal related to the
current one.  The JS version iterates over all open PRs fetched from the
hosting platform; here the open-proposal list is passed explicitly.  Note that
it does not consult the caller's `processed` set. -/
def detectRelatedPRs (cfg : FeatureDetectionConfig) (openPRs : List PR) (current : PR) :
    List PR :=
  openPRs.filter (fun p => p.number ≠ current.number && isPRRelated cfg current p)

/-- `extractFeatureName(pr)`: the first branch-pattern capture with `-` and `_`
turned into spaces, falling back to the first 50 characters of the title. -/
def extractFeatureName (cfg : FeatureDetectionConfig) (pr : PR) : String :=
  match cfg.branchPatterns.findSome? (fun pat => captureAfter pat.data pr.branch.data) with
  | some cap => String.mk (cap.map (fun c => if c = '-' ∨ c = '_' then ' ' else c))
  | none => String.mk (pr.title.data.take 50)

/-- A feature group as emitted by `groupPRsByFeature`: a derived feature name
and the member proposals (anchor first). -/
structure FeatureGroup where
  feature : String
  prs : List PR
deriving DecidableEq

/-- The loop body of `groupPRsByFeature`: skip anchors already processed,
collect the related proposals of the anchor (the JS code collects them from
the full open-PR list, not only from unprocessed ones), emit a group when the
related set is non-empty, and mark anchor and members processed. -/
def groupLoop (cfg : FeatureDetectionConfig) (openPRs : List PR) :
    List PR → Finset ℕ → List FeatureGroup
  | [], _ => []
  | pr :: rest, processed =>
    if pr.number ∈ processed then groupLoop cfg openPRs rest processed
    else
      let relatedPRs := detectRelatedPRs cfg openPRs pr
      if relatedPRs = [] then groupLoop cfg openPRs rest processed
      else
        ⟨extractFeatureName cfg pr, pr :: relatedPRs⟩ ::
          groupLoop cfg openPRs rest
            (insert pr.number (processed ∪ (relatedPRs.map (fun p => p.number)).toFinset))

/-- `groupPRsByFeature(prs)`: iterate over the proposals with a `processed`
set, forming a group per unprocessed anchor with a non-empty related set.
The open-proposal list consulted by `detectRelatedPRs` is the same proposal
set. -/
def groupPRsByFeature (cfg : FeatureDetectionConfig) (prs : List PR) : List FeatureGroup :=
  groupLoop cfg prs prs ∅

/-! ### Code analyzer, duplication detection (`CodeAnalyzer`, src/unnamed/part_001)

`extractCodeBlocks` / `areSimilarBlocks` / `detectDuplication` / `isCodeFile`. -/

/-- `isCodeFile(filename)`: classified "code" by extension. -/
def isCodeFile (filename : String) : Bool :=
  [".js", ".ts", ".jsx", ".tsx", ".py", ".java", ".cpp", ".c", ".cs", ".php",
   ".rb", ".go", ".rs"].any (fun ext => filename.endsWith ext)

/-- Accumulator loop of `extractCodeBlocks`: group consecutive substantive
added lines (length > 10, not comment-initial) into blocks of at least 3
lines. -/
def extractBlocksAux : List String → List String → List String
  | [], cur => if 3 ≤ cur.length then [joinNl cur.reverse] else []
  | l :: ls, cur =>
    if 10 < l.length ∧ ¬ l.startsWith "//" ∧ ¬ l.startsWith "/*" then
      extractBlocksAux ls (l :: cur)
    else if 3 ≤ cur.length then joinNl cur.reverse :: extractBlocksAux ls []
    else extractBlocksAux ls []

/-- `extractCodeBlocks(patch)`: the trimmed added lines of the patch, grouped
into contiguous substantive blocks. -/
def extractCodeBlocks (patch : String) : List String :=
  extractBlocksAux
    (((splitLines patch).filter (fun l => l.startsWith "+")).map
      (fun l => trimStr (String.mk (l.data.drop 1)))) []

/-- The words of a code block as used by `areSimilarBlocks`: lowercase, split
on non-word characters (`\W+`), keeping only words longer than 2 characters. -/
def blockWords (b : String) : List String :=
  ((wordRuns (lowerStr b)).map String.mk).filter (fun w => 2 < w.length)

/-- The word-overlap fraction of `areSimilarBlocks`:
`intersection.length / max(words1.length, words2.length)`, where the
intersection keeps every word of the first block that also occurs in the
second.  When both word lists are empty the JS division is `0/0 = NaN`,
modelled as `none`. -/
def wordOverlapFraction (b1 b2 : String) : Option ℚ :=
  let words1 := blockWords b1
  let words2 := blockWords b2
  let intersection := words1.filter (fun w => words2.contains w)
  if max words1.length words2.length = 0 then none
  else some ((intersection.length : ℚ) / ((max words1.length words2.length : ℕ) : ℚ))

/-- `areSimilarBlocks(block1, block2)`: both blocks at least 50 characters
long and word-overlap similarity above `0.7` (a `NaN` comparison is false). -/
def areSimilarBlocks (b1 b2 : String) : Bool :=
  if b1.length < 50 ∨ b2.length < 50 then false
  else
    match wordOverlapFraction b1 b2 with
    | none => false
    | some r => decide ((0.7 : ℚ) < r)

/-- The nested pair loop of `detectDuplication`: the number of index pairs
`i < j` whose blocks are similar. -/
def countSimilarPairs : List String → ℕ
  | [] => 0
  | b :: rest => (rest.filter (fun b2 => areSimilarBlocks b b2)).length + countSimilarPairs rest

/-- `detectDuplication(files)`: extract the substantive added blocks of every
code file that has a patch, count similar pairs, capped at 10. -/
def detectDuplication (files : List FileChange) : ℕ :=
  min
    (countSimilarPairs (files.flatMap (fun f =>
      match f.patch with
      | some p => if isCodeFile f.filename then extractCodeBlocks p else []
      | none => [])))
    10

/-! ### Snippet extractor (`SnippetExtractor`, src/unnamed/part_001)

`extractCodeChanges` / `calculateCodeSimilarity` / `findSimilarChangeRegions` /
`evaluateSnippetQuality` / `assessIntegrationComplexity` /
`compareFileImplementations` / `rankSnippets` / `extractSuperiorSnippets`. -/

/-- One contiguous added-line change region (`{code, lineCount}`). -/
structure Change where
  code : String
  lineCount : ℕ
deriving DecidableEq

/-- Accumulator loop of `extractCodeChanges`: collect maximal runs of added
lines (`+` but not `+++`), recording the joined code and the line count. -/
def extractChangesAux : List String → List String → List Change
  | [], cur => if cur = [] then [] else [⟨joinNl cur.reverse, cur.length⟩]
  | l :: ls, cur =>
    if l.startsWith "+" ∧ ¬ l.startsWith "+++" then
      extractChangesAux ls (String.mk (l.data.drop 1) :: cur)
    else if cur = [] then extractChangesAux ls []
    else ⟨joinNl cur.reverse, cur.length⟩ :: extractChangesAux ls []

/-- `extractCodeChanges(patch)`: the added-line regions of a patch with more
than 2 lines; an absent patch (binary file) yields no changes. -/
def extractCodeChanges (patch : Option String) : List Change :=
  match patch with
  | none => []
  | some p => (extractChangesAux (splitLines p) []).filter (fun c => 2 < c.lineCount)

/-- Collapse every whitespace run of a character list to a single space
(JS `replace(/\s+/g, ' ')` after mapping each whitespace character to a
space). -/
def squeezeSpaces : List Char → List Char
  | [] => []
  | [c] => [c]
  | a :: b :: rest =>
    if a = ' ' ∧ b = ' ' then squeezeSpaces (b :: rest)
    else a :: squeezeSpaces (b :: rest)

/-- The normalization step of `calculateCodeSimilarity`: lowercase, collapse
whitespace, strip the punctuation characters `{}();,`, and trim. -/
def normalizeCode (code : String) : String :=
  trimStr (String.mk
    ((squeezeSpaces ((lowerStr code).data.map
        (fun c => if c.isWhitespace then ' ' else c))).filter
      (fun c => c ∉ ['\x7b', '\x7d', '(', ')', ';', ','])))

/-- `calculateCodeSimilarity(code1, code2)`: similarity of the normalized
snippets. -/
def calculateCodeSimilarity (code1 code2 : String) : ℚ :=
  strSimilarity (normalizeCode code1) (normalizeCode code2)

/-- A pair of comparable change regions from `findSimilarChangeRegions`. -/
structure Comparison where
  winningSnippet : Change
  losingSnippet : Change
  similarity : ℚ
deriving DecidableEq

/-- `findSimilarChangeRegions(winningChanges, losingChanges)`: every
(losing, winning) pair whose similarity lies strictly between `0.3` and
`0.8`. -/
def findSimilarChangeRegions (winningChanges losingChanges : List Change) : List Comparison :=
  losingChanges.flatMap fun losingChange =>
    winningChanges.filterMap fun winningChange =>
      if (0.3 : ℚ) < calculateCodeSimilarity winningChange.code losingChange.code ∧
          calculateCodeSimilarity winningChange.code losingChange.code < (0.8 : ℚ) then
        some ⟨winningChange, losingChange,
          calculateCodeSimilarity winningChange.code losingChange.code⟩
      else none

/-- `hasErrorHandling(code)`: error-handling vocabulary in the lowercased
code. -/
def hasErrorHandling (code : String) : Bool :=
  ["try", "catch", "throw", "error", "exception"].any
    (fun k => strContains (lowerStr code) k)

/-- `hasInputValidation(code)`. -/
def hasInputValidation (code : String) : Bool :=
  ["validate", "check", "verify", "assert", "typeof", "instanceof"].any
    (fun k => strContains (lowerStr code) k)

/-- The identifiers matched by the JS regex `\b[a-zA-Z_][a-zA-Z0-9_]*\b`:
exactly the maximal word-character runs whose first character is a letter or
an underscore. -/
def identifierWords (code : String) : List String :=
  ((wordRuns code).filter (fun r =>
    match r.head? with
    | some c => c.isAlpha || c = '_'
    | none => false)).map String.mk

/-- `hasGoodNaming(code)`: more than 70% of the matched words are descriptive
(longer than 3 characters and not a bare lowercase letter). -/
def hasGoodNaming (code : String) : Bool :=
  let words := identifierWords code
  let descriptiveNames := words.filter (fun w =>
    3 < w.length ∧ ¬ (w.length = 1 ∧ w.data.all Char.isLower))
  decide ((words.length : ℚ) * 0.7 < (descriptiveNames.length : ℚ))

/-- `hasComments(code)`. -/
def hasComments (code : String) : Bool :=
  strContains code "//" || strContains code "/*" || strContains code "#"

/-- `isWellStructured(code)`: more than 30% of the lines (relative to the
non-empty lines) start with whitespace. -/
def isWellStructured (code : String) : Bool :=
  let lines := splitLines code
  let nonEmptyLines := lines.filter (fun l => 0 < (trimStr l).length)
  let indentedLines := lines.filter (fun l =>
    match l.data.head? with
    | some c => c.isWhitespace
    | none => false)
  decide ((nonEmptyLines.length : ℚ) * 0.3 < (indentedLines.length : ℚ))

/-- `hasTestCoverage(code)`. -/
def hasTestCoverage (code : String) : Bool :=
  ["test", "spec", "describe", "it", "expect", "assert"].any
    (fun k => strContains (lowerStr code) k)

/-- `hasPerformanceOptimizations(code)`. -/
def hasPerformanceOptimizations (code : String) : Bool :=
  ["cache", "memo", "optimize", "efficient", "performance"].any
    (fun k => strContains (lowerStr code) k)

/-- Whether the JS regex `if\s*\(` matches at the head of this character
list. -/
def isIfCallAt (cs : List Char) : Bool :=
  match cs with
  | 'i' :: 'f' :: rest => (rest.dropWhile Char.isWhitespace).head? = some '('
  | _ => false

/-- The number of matches of `/if\s*\(/g` in the code (matches of this
pattern can never overlap, so counting the starting positions is the
non-overlapping global match count). -/
def countIfCalls (code : String) : ℕ :=
  (code.data.tails.filter isIfCallAt).length

/-- Whether the JS regex `\b[a-z]\b` matches: some maximal word-character
run is a single lowercase letter. -/
def hasBareSingleLetter (code : String) : Bool :=
  (wordRuns code).any (fun r =>
    match r with
    | [c] => c.isLower
    | _ => false)

/-- Whether the JS regex `(for|if|in)\s+[a-z]\b` matches at the head of this
character list: one of the literals, then at least one whitespace character,
then a lowercase letter followed by a word boundary. -/
def isLoopIdiomAt (cs : List Char) : Bool :=
  let after : List Char → Bool := fun rest =>
    (rest.takeWhile Char.isWhitespace ≠ []) &&
      (match rest.dropWhile Char.isWhitespace with
       | c :: tail =>
         c.isLower && (match tail with
           | [] => true
           | d :: _ => !isWordChar d)
       | [] => false)
  (['f', 'o', 'r'].isPrefixOf cs && after (cs.drop 3)) ||
  (['i', 'f'].isPrefixOf cs && after (cs.drop 2)) ||
  (['i', 'n'].isPrefixOf cs && after (cs.drop 2))

/-- Whether `(for|if|in)\s+[a-z]\b` matches anywhere in the code. -/
def hasLoopIdiom (code : String) : Bool :=
  code.data.tails.any isLoopIdiomAt

/-- `hasCodeSmells(code)`: at least 2 of the five smell indicators co-occur:
a `TODO` marker, a `FIXME` marker, more than 5 `if (` conditionals, length
over 1000 characters, and a bare single-letter variable outside the loop
idiom. -/
def hasCodeSmells (code : String) : Bool :=
  let smells : List Bool :=
    [strContains code "TODO",
     strContains code "FIXME",
     decide (5 < countIfCalls code),
     decide (1000 < code.length),
     hasBareSingleLetter code && !hasLoopIdiom code]
  1 < (smells.filter (fun b => b)).length

/-- The result of the quality heuristic: a clamped score and the triggered
reasons, joined for display. -/
structure Quality where
  score : ℚ
  reasoning : String
deriving DecidableEq

/-- `evaluateSnippetQuality(snippet)`: base score 50 with fixed additive
bonuses for each positive signal, a 15-point deduction for code smells, and
a final clamp to [0, 100]. -/
def evaluateSnippetQuality (code : String) : Quality :=
  let signals : List (Bool × ℚ × String) :=
    [(hasErrorHandling code, 15, "Includes error handling"),
     (hasInputValidation code, 10, "Includes input validation"),
     (hasGoodNaming code, 10, "Uses descriptive naming"),
     (hasComments code, 8, "Well documented with comments"),
     (isWellStructured code, 12, "Well structured and organized"),
     (hasTestCoverage code, 15, "Includes or supports testing"),
     (hasPerformanceOptimizations code, 10, "Includes performance optimizations"),
     (hasCodeSmells code, -15, "Contains potential code smells")]
  let score : ℚ := 50 + ((signals.filter (fun s => s.1)).map (fun s => s.2.1)).sum
  { score := max 0 (min 100 score),
    reasoning := String.intercalate ", " ((signals.filter (fun s => s.1)).map (fun s => s.2.2)) }

/-- Integration complexity of a snippet (`'low' | 'medium' | 'high'`). -/
inductive Complexity where
  | low
  | medium
  | high
deriving DecidableEq

/-- `assessIntegrationComplexity(comparison)`: from the absolute line-count
difference of the compared regions. -/
def assessIntegrationComplexity (comparison : Comparison) : Complexity :=
  let sizeDiff :=
    max comparison.winningSnippet.lineCount comparison.losingSnippet.lineCount -
      min comparison.winningSnippet.lineCount comparison.losingSnippet.lineCount
  if sizeDiff < 5 then .low
  else if sizeDiff < 15 then .medium
  else .high

/-- The kind tag of a snippet (`'new_file' | 'function' | 'improvement'` in
the JS objects). -/
inductive SnippetKind where
  | new_file
  | fn
  | improvement
deriving DecidableEq

/-- A salvaged snippet as built by the snippet extractor. -/
structure Snippet where
  kind : SnippetKind
  filename : String
  /-- For `improvement` snippets, the losing change region. -/
  snippet : Change
  /-- For `improvement` snippets, the winning change region it was compared
  against. -/
  winningAlternative : Option Change
  quality : Quality
  /-- The owning (losing) proposal. -/
  prNumber : ℕ
  integrationComplexity : Complexity
deriving DecidableEq

/-- `compareFileImplementations(winningFile, losingFile, losingPR)`: extract
the change regions from both patches, pair up the comparable regions, and
keep each losing region whose quality score exceeds 75 as an `improvement`
snippet. -/
def compareFileImplementations (winningPatch losingPatch : Option String)
    (filename : String) (losingPRNumber : ℕ) : List Snippet :=
  let winningChanges := extractCodeChanges winningPatch
  let losingChanges := extractCodeChanges losingPatch
  (findSimilarChangeRegions winningChanges losingChanges).filterMap fun comparison =>
    if (75 : ℚ) < (evaluateSnippetQuality comparison.losingSnippet.code).score then
      some
        { kind := .improvement,
          filename := filename,
          snippet := comparison.losingSnippet,
          winningAlternative := some comparison.winningSnippet,
          quality := evaluateSnippetQuality comparison.losingSnippet.code,
          prNumber := losingPRNumber,
          integrationComplexity := assessIntegrationComplexity comparison }
    else none

/-- Numeric rank of a complexity (`{low: 1, medium: 2, high: 3}`). -/
def complexityRank : Complexity → ℕ
  | .low => 1
  | .medium => 2
  | .high => 3

/-- The comparator of `rankSnippets`: `a` sorts before `b` when its quality
score is higher, or the scores are equal and its integration complexity is
not larger. -/
def snippetBefore (a b : Snippet) : Prop :=
  b.quality.score < a.quality.score ∨
    (a.quality.score = b.quality.score ∧
      complexityRank a.integrationComplexity ≤ complexityRank b.integrationComplexity)

instance : DecidableRel snippetBefore := fun a b => by
  unfold snippetBefore; infer_instance

instance : IsTotal Snippet snippetBefore where
  total a b := by
    unfold snippetBefore
    rcases lt_trichotomy a.quality.score b.quality.score with h | h | h
    · exact Or.inr (Or.inl h)
    · rcases le_total (complexityRank a.integrationComplexity)
        (complexityRank b.integrationComplexity) with hc | hc
      · exact Or.inl (Or.inr ⟨h, hc⟩)
      · exact Or.inr (Or.inr ⟨h.symm, hc⟩)
    · exact Or.inl (Or.inl h)

instance : IsTrans Snippet snippetBefore where
  trans a b c hab hbc := by
    unfold snippetBefore at *
    rcases hab with hab | ⟨hab1, hab2⟩
    · rcases hbc with hbc | ⟨hbc1, hbc2⟩
      · exact Or.inl (hbc.trans hab)
      · exact Or.inl (hbc1 ▸ hab)
    · rcases hbc with hbc | ⟨hbc1, hbc2⟩
      · exact Or.inl (hab1 ▸ hbc)
      · exact Or.inr ⟨hab1.trans hbc1, hab2.trans hbc2⟩

/-- `rankSnippets(snippets)`: sort by the comparator (quality score
descending, then integration complexity ascending).  The JS `Array.sort`
with this comparator is modelled as a sort producing a sorted permutation of
the input with respect to `snippetBefore`. -/
def rankSnippets (snippets : List Snippet) : List Snippet :=
  snippets.insertionSort snippetBefore

/-- The ranking-and-truncation tail of `extractSuperiorSnippets`: rank the
aggregated candidate snippets and return the top 10
(`rankedSnippets.slice(0, 10)`). -/
def extractSuperiorSnippets (candidateSnippets : List Snippet) : List Snippet :=
  (rankSnippets candidateSnippets).take 10

/-! ### Competition scorer (`PRScorer`, src/scripts/pr-scorer.js)

Each `scoreX(pr)` method wraps its collaborator calls in `try { ... } catch`:
on any failure of the block the method falls back to a hard-coded default
total and leaves the metrics at their initial values.  We model the whole
collaborator-provided input of one sub-score as an `Option`: `some` carries
the fetched data, `none` is the failure (catch) path. -/

/-- The scoring weights (`config.scoring.weights`). -/
structure Weights where
  codeQuality : ℚ
  testing : ℚ
  performance : ℚ
  security : ℚ
  documentation : ℚ

/-- The scoring thresholds (`config.scoring.thresholds`). -/
structure Thresholds where
  minimumScore : ℚ
  autoMergeScore : ℚ
  codeQualityMin : ℚ
  testingMin : ℚ
  performanceMin : ℚ
  securityMin : ℚ
  documentationMin : ℚ

/-- Clamp a raw total to [0, 100]
(JS `Math.max(0, Math.min(100, totalScore))`). -/
def clampScore (x : ℚ) : ℚ := max 0 (min 100 x)

/-- The code-quality metrics produced by the `CodeAnalyzer` collaborator. -/
structure CodeQualityMetrics where
  complexity : ℚ
  maintainability : ℚ
  duplication : ℚ
  standards : ℚ
deriving DecidableEq

/-- A criterion record of the report: clamped score, code-quality metrics
when this criterion carries them, and the fixed explanation text. -/
structure CodeQualityResult where
  score : ℚ
  metrics : CodeQualityMetrics
  details : String
deriving DecidableEq

/-- The raw code-quality total of `scoreCodeQuality`'s success path. -/
def codeQualityTotal (m : CodeQualityMetrics) : ℚ :=
  (100 - min (m.complexity * 5) 50) * 0.25 +
  m.standards * 0.30 +
  (100 - min (m.duplication * 10) 50) * 0.20 +
  m.maintainability * 0.25

/-- The outcome of the collaborator interactions of `scoreCodeQuality`.
Unlike the other four criteria, its `getPRFiles` call stands *before* the
`try` block, so that call's failure is not caught locally:
`fetchError` is that case (the exception propagates to the caller);
with the files fetched, the guarded analyzer block either fails inside the
`try` (`analysisFailure`, caught locally) or produces the four metrics. -/
inductive CodeQualityInput where
  | fetchError
  | analysisFailure
  | metrics (m : CodeQualityMetrics)

/-- `scoreCodeQuality(pr)`: a failure of the unguarded `getPRFiles` call
re-throws (`Except.error`); otherwise the result is the weighted analyzer
blend on success, or the default middle total `50` with zeroed metrics when
the guarded analysis block fails. -/
def scoreCodeQuality (input : CodeQualityInput) : Except Unit CodeQualityResult :=
  match input with
  | .fetchError => .error ()
  | .analysisFailure =>
    .ok
      { score := clampScore 50, metrics := ⟨0, 0, 0, 0⟩,
        details := "Code quality analysis including complexity, standards, duplication, and maintainability" }
  | .metrics m =>
    .ok
      { score := clampScore (codeQualityTotal m), metrics := m,
        details := "Code quality analysis including complexity, standards, duplication, and maintainability" }

/-- The testing metrics gathered for `scoreTesting`. -/
structure TestingMetrics where
  coverage : ℚ
  testFiles : ℕ
  testsPassing : Bool
  edgeCases : ℕ
deriving DecidableEq

structure TestingResult where
  score : ℚ
  metrics : TestingMetrics
  details : String
deriving DecidableEq

/-- The raw testing total of `scoreTesting`'s success path: capped coverage,
test-file, passing and edge-case components blended `0.4/0.2/0.3/0.1`. -/
def testingTotal (m : TestingMetrics) : ℚ :=
  let coverageScore := min (m.coverage * 1.25) 100
  let testFileScore := min ((m.testFiles : ℚ) * 20) 30
  let passingScore : ℚ := if m.testsPassing then 40 else 0
  let edgeCaseScore := min ((m.edgeCases : ℚ) * 10) 30
  coverageScore * 0.4 + testFileScore * 0.2 + passingScore * 0.3 + edgeCaseScore * 0.1

/-- `scoreTesting(pr)`: on success the blended total, on failure the default
total `60` with the initial metrics. -/
def scoreTesting (input : Option TestingMetrics) : TestingResult :=
  match input with
  | some m =>
    { score := clampScore (testingTotal m), metrics := m,
      details := "Testing analysis including coverage, test quality, and edge case handling" }
  | none =>
    { score := clampScore 60, metrics := ⟨0, 0, true, 0⟩,
      details := "Testing analysis including coverage, test quality, and edge case handling" }

/-- The performance metrics gathered for `scorePerformance`; `loadTime` and
`memoryUsage` are the hard-coded mock values 85 and 75. -/
structure PerformanceMetrics where
  benchmarks : ℚ
  optimizations : ℚ
deriving DecidableEq

structure PerformanceResult where
  score : ℚ
  metrics : PerformanceMetrics
  details : String
deriving DecidableEq

/-- The raw performance total of `scorePerformance`'s success path. -/
def performanceTotal (m : PerformanceMetrics) : ℚ :=
  85 * 0.30 + 75 * 0.25 + m.benchmarks * 0.25 + m.optimizations * 0.20

/-- `scorePerformance(pr)`: on success the blended total, on failure the
default total `70`. -/
def scorePerformance (input : Option PerformanceMetrics) : PerformanceResult :=
  match input with
  | some m =>
    { score := clampScore (performanceTotal m), metrics := m,
      details := "Performance analysis including load time, memory usage, and optimizations" }
  | none =>
    { score := clampScore 70, metrics := ⟨0, 0⟩,
      details := "Performance analysis including load time, memory usage, and optimizations" }

/-- The security metrics gathered for `scoreSecurity`. -/
structure SecurityMetrics where
  vulnerabilities : ℕ
  bestPractices : ℚ
  inputValidation : ℚ
  errorHandling : ℚ
deriving DecidableEq

structure SecurityResult where
  score : ℚ
  metrics : SecurityMetrics
  details : String
deriving DecidableEq

/-- The raw security total of `scoreSecurity`'s success path. -/
def securityTotal (m : SecurityMetrics) : ℚ :=
  (100 - (m.vulnerabilities : ℚ) * 25) * 0.40 +
  m.bestPractices * 0.30 +
  m.inputValidation * 0.20 +
  m.errorHandling * 0.10

/-- `scoreSecurity(pr)`: on success the blended total, on failure the
default high total `80`. -/
def scoreSecurity (input : Option SecurityMetrics) : SecurityResult :=
  match input with
  | some m =>
    { score := clampScore (securityTotal m), metrics := m,
      details := "Security analysis including vulnerability scanning and best practices" }
  | none =>
    { score := clampScore 80, metrics := ⟨0, 0, 0, 0⟩,
      details := "Security analysis including vulnerability scanning and best practices" }

/-- The documentation metrics gathered for `scoreDocumentation`. -/
structure DocumentationMetrics where
  codeComments : ℚ
  readmeUpdates : ℚ
  apiDocs : ℚ
deriving DecidableEq

structure DocumentationResult where
  score : ℚ
  metrics : DocumentationMetrics
  details : String
deriving DecidableEq

/-- `scoreDocumentation(pr)`: on success the completeness average, on failure
the default total `60`. -/
def scoreDocumentation (input : Option DocumentationMetrics) : DocumentationResult :=
  match input with
  | some m =>
    { score := clampScore ((m.codeComments + m.readmeUpdates + m.apiDocs) / 3), metrics := m,
      details := "Documentation analysis including code comments, README updates, and API docs" }
  | none =>
    { score := clampScore 60, metrics := ⟨0, 0, 0⟩,
      details := "Documentation analysis including code comments, README updates, and API docs" }

/-- The five criterion records of one report. -/
structure Scores where
  codeQuality : CodeQualityResult
  testing : TestingResult
  performance : PerformanceResult
  security : SecurityResult
  documentation : DocumentationResult
deriving DecidableEq

/-- `calculateWeightedScore(scores)`: the weighted sum of the five
sub-scores. -/
def calculateWeightedScore (w : Weights) (s : Scores) : ℚ :=
  s.codeQuality.score * w.codeQuality +
  s.testing.score * w.testing +
  s.performance.score * w.performance +
  s.security.score * w.security +
  s.documentation.score * w.documentation

/-- The per-criterion threshold verdicts of `checkThresholds`. -/
structure ThresholdVerdict where
  overall : Bool
  codeQuality : Bool
  testing : Bool
  performance : Bool
  security : Bool
  documentation : Bool
  autoMergeEligible : Bool
deriving DecidableEq

/-- `checkThresholds(scores, weightedScore)`. -/
def checkThresholds (t : Thresholds) (s : Scores) (weightedScore : ℚ) : ThresholdVerdict :=
  { overall := decide (t.minimumScore ≤ weightedScore),
    codeQuality := decide (t.codeQualityMin ≤ s.codeQuality.score),
    testing := decide (t.testingMin ≤ s.testing.score),
    performance := decide (t.performanceMin ≤ s.performance.score),
    security := decide (t.securityMin ≤ s.security.score),
    documentation := decide (t.documentationMin ≤ s.documentation.score),
    autoMergeEligible := decide (t.autoMergeScore ≤ weightedScore) }

/-- A scoring report (`scorePR`'s result, minus the copied PR header and the
wall-clock timestamp). -/
structure Report where
  scores : Scores
  weightedScore : ℚ
  meetsThresholds : ThresholdVerdict
deriving DecidableEq

/-- `getDefaultScore(pr)`: the all-defaults report returned by `scorePR`'s
outer catch — every sub-score 50, weighted score 50, every threshold verdict
false.  The JS leaves each criterion's `metrics` an empty object `{}`;
modelled as the zero records. -/
def getDefaultScore : Report :=
  { scores :=
      { codeQuality := ⟨50, ⟨0, 0, 0, 0⟩, "Default score due to analysis failure"⟩,
        testing := ⟨50, ⟨0, 0, true, 0⟩, "Default score due to analysis failure"⟩,
        performance := ⟨50, ⟨0, 0⟩, "Default score due to analysis failure"⟩,
        security := ⟨50, ⟨0, 0, 0, 0⟩, "Default score due to analysis failure"⟩,
        documentation := ⟨50, ⟨0, 0, 0⟩, "Default score due to analysis failure"⟩ },
    weightedScore := 50,
    meetsThresholds := ⟨false, false, false, false, false, false, false⟩ }

/-- `scorePR(pr)`: the five sub-scores — computed in source order, code
quality first — the weighted total, and the threshold verdicts.  The
criteria other than code quality catch every failure of their own
collaborator block internally, but a failure of the unguarded `getPRFiles`
call inside `scoreCodeQuality` escapes to `scorePR`'s outer catch, which
replaces the entire report with `getDefaultScore` (the remaining sub-scores
are never computed). -/
def scorePR (w : Weights) (t : Thresholds)
    (codeQualityInput : CodeQualityInput)
    (testingInput : Option TestingMetrics)
    (performanceInput : Option PerformanceMetrics)
    (securityInput : Option SecurityMetrics)
    (documentationInput : Option DocumentationMetrics) : Report :=
  match scoreCodeQuality codeQualityInput with
  | .error _ => getDefaultScore
  | .ok codeQualityResult =>
    let scores : Scores :=
      { codeQuality := codeQualityResult,
        testing := scoreTesting testingInput,
        performance := scorePerformance performanceInput,
        security := scoreSecurity securityInput,
        documentation := scoreDocumentation documentationInput }
    let weightedScore := calculateWeightedScore w scores
    { scores := scores, weightedScore := weightedScore,
      meetsThresholds := checkThresholds t scores weightedScore }

/-! #### The nondeterministic placeholder metrics

`analyzeTestCoverage`, `checkTestStatus`, `analyzeEdgeCaseCoverage`,
`analyzePerformanceBenchmarks`, `scanSecurityVulnerabilities` and
`analyzeSecurityPractices` call `Math.random()`.  Each call is modelled as a
draw recorded in a `RandomDraws` value, so a scoring run is a function of the
proposal-derived data together with the draws. -/

/-- One `Math.random()` value per randomized helper of `PRScorer`. -/
structure RandomDraws where
  coverageDraw : ℚ
  testStatusDraw : ℚ
  edgeCaseDraw : ℚ
  benchmarkDraw : ℚ
  vulnerabilityDraw : ℚ
  practicesDraw : ℚ

/-- `countTestFiles(pr)`: the changed files whose name contains `test` or
`spec` or ends in a test-suffix. -/
def countTestFiles (pr : PR) : ℕ :=
  (pr.files.filter (fun f =>
    strContains f.filename "test" || strContains f.filename "spec" ||
    f.filename.endsWith ".test.js" || f.filename.endsWith ".spec.js")).length

/-- The proposal-derived (deterministic) part of the collaborator data of one
scoring run: everything `scorePR` computes from the proposal's files and the
analyzer, with the random draws factored out. -/
structure FileDerivedData where
  codeQuality : CodeQualityMetrics
  testFiles : ℕ
  optimizations : ℚ
  inputValidation : ℚ
  errorHandling : ℚ
  documentation : DocumentationMetrics

/-- `analyzeTestCoverage(pr)` is `Math.random() * 40 + 60`. -/
def analyzeTestCoverage (r : RandomDraws) : ℚ := r.coverageDraw * 40 + 60

/-- `checkTestStatus(pr)` is `Math.random() > 0.1`. -/
def checkTestStatus (r : RandomDraws) : Bool := decide ((0.1 : ℚ) < r.testStatusDraw)

/-- `analyzeEdgeCaseCoverage(pr)` is `Math.floor(Math.random() * 5)`. -/
def analyzeEdgeCaseCoverage (r : RandomDraws) : ℕ := (r.edgeCaseDraw * 5).floor.toNat

/-- `analyzePerformanceBenchmarks(pr)` is `Math.random() * 30 + 70`. -/
def analyzePerformanceBenchmarks (r : RandomDraws) : ℚ := r.benchmarkDraw * 30 + 70

/-- `scanSecurityVulnerabilities(pr)` is `Math.floor(Math.random() * 3)`. -/
def scanSecurityVulnerabilities (r : RandomDraws) : ℕ := (r.vulnerabilityDraw * 3).floor.toNat

/-- `analyzeSecurityPractices(pr)` is `Math.random() * 30 + 70`. -/
def analyzeSecurityPractices (r : RandomDraws) : ℚ := r.practicesDraw * 30 + 70

/-- One full scoring run of `scorePR` on fixed configuration and fixed
proposal-derived collaborator data, as a function of the random draws. -/
def scorePRRun (w : Weights) (t : Thresholds) (d : FileDerivedData) (r : RandomDraws) : Report :=
  scorePR w t
    (CodeQualityInput.metrics d.codeQuality)
    (some
      { coverage := analyzeTestCoverage r,
        testFiles := d.testFiles,
        testsPassing := checkTestStatus r,
        edgeCases := analyzeEdgeCaseCoverage r })
    (some { benchmarks := analyzePerformanceBenchmarks r, optimizations := d.optimizations })
    (some
      { vulnerabilities := scanSecurityVulnerabilities r,
        bestPractices := analyzeSecurityPractices r,
        inputValidation := d.inputValidation,
        errorHandling := d.errorHandling })
    (some d.documentation)

/-! ### Concrete inputs used by counterexamples and witnesses -/

/-- A grouping configuration with label keywords `auth` and `ui` and no
branch patterns (spec-default title and file-overlap thresholds). -/
def groupCexConfig : FeatureDetectionConfig :=
  { branchPatterns := [],
    titleSimilarityThreshold := 0.7,
    fileOverlapThreshold := 0.3,
    labelKeywords := ["auth", "ui"] }

/-- Proposal #1: labelled `auth-core` only. -/
def groupCexPR1 : PR :=
  { number := 1, title := "alpha", branch := "b1", labels := ["auth-core"],
    files := [⟨"a.js", "modified", none⟩] }

/-- Proposal #2: labelled both `auth-core` and `ui-core`, hence related to
both #1 (via `auth`) and #3 (via `ui`). -/
def groupCexPR2 : PR :=
  { number := 2, title := "beta", branch := "b2", labels := ["auth-core", "ui-core"],
    files := [⟨"b.js", "modified", none⟩] }

/-- Proposal #3: labelled `ui-core` only, unrelated to #1. -/
def groupCexPR3 : PR :=
  { number := 3, title := "gamma", branch := "b3", labels := ["ui-core"],
    files := [⟨"c.js", "modified", none⟩] }

/-- The documented default weights (0.30/0.25/0.20/0.15/0.10). -/
def defaultWeights : Weights :=
  { codeQuality := 0.30, testing := 0.25, performance := 0.20,
    security := 0.15, documentation := 0.10 }

/-- Thresholds with the documented defaults for `minimumScore` (70),
`autoMergeScore` (90), and a testing minimum of 70. -/
def defaultThresholds : Thresholds :=
  { minimumScore := 70, autoMergeScore := 90, codeQualityMin := 0,
    testingMin := 70, performanceMin := 0, securityMin := 0, documentationMin := 0 }

/-- Fixed proposal-derived collaborator data for the determinism
counterexample. -/
def detCexData : FileDerivedData :=
  { codeQuality := ⟨0, 0, 0, 0⟩, testFiles := 0, optimizations := 0,
    inputValidation := 0, errorHandling := 0, documentation := ⟨0, 0, 0⟩ }

/-- First sequence of random draws: every `Math.random()` call returns 0. -/
def detCexDrawsA : RandomDraws := ⟨0, 0, 0, 0, 0, 0⟩

/-- Second sequence of random draws: the coverage draw returns 0.5
instead. -/
def detCexDrawsB : RandomDraws := ⟨0.5, 0, 0, 0, 0, 0⟩

/-- A concrete Scores record for the weighted-score witness. -/
def boundsWitnessScores : Scores :=
  { codeQuality := ⟨80, ⟨0, 0, 0, 0⟩, ""⟩,
    testing := ⟨55, ⟨0, 0, true, 0⟩, ""⟩,
    performance := ⟨70, ⟨0, 0⟩, ""⟩,
    security := ⟨90, ⟨0, 0, 0, 0⟩, ""⟩,
    documentation := ⟨40, ⟨0, 0, 0⟩, ""⟩ }

/-- Concrete testing metrics that max out every capped component. -/
def testingWitnessMetrics : TestingMetrics := ⟨100, 5, true, 5⟩

/-- A Scores record whose testing entry is a normally computed testing
sub-score. -/
def testingWitnessScores : Scores :=
  { codeQuality := ⟨50, ⟨0, 0, 0, 0⟩, ""⟩,
    testing := scoreTesting (some testingWitnessMetrics),
    performance := scorePerformance none,
    security := scoreSecurity none,
    documentation := scoreDocumentation none }

/-- A proposal with an empty changed-file set. -/
def emptyFilesPR1 : PR := { number := 7, title := "x", branch := "bx", labels := [], files := [] }

/-- Another proposal with an empty changed-file set. -/
def emptyFilesPR2 : PR := { number := 8, title := "y", branch := "by", labels := [], files := [] }

/-! ## Theorems -/

/-- The spec-modelled similarity score is symmetric. -/
theorem strSimilarity_comm (a b : String) : strSimilarity a b = strSimilarity b a := by
  unfold strSimilarity
  rw [Multiset.inter_comm, Nat.add_comm]

/-- Claim C1 (counterexample): the failure fallback of the testing sub-score
is 60, not the neutral default 50 claimed by the spec. -/
theorem scoreTesting_fallback_ne_50 :
    (scoreTesting none).score = 60 ∧ (scoreTesting none).score ≠ 50 := by
  constructor <;> with_unfolding_all decide

/-- Claim C1 (amended): a failure of a sub-computation inside a criterion's
*guarded* analysis block does not abort the report: that criterion falls
back to its own hard-coded default total — 50 for code quality, 60 for
testing, 70 for performance, 80 for security, 60 for documentation — and
each remaining criterion still computes normally from its own collaborator
input.  However the `getPRFiles` call of `scoreCodeQuality` stands outside
its guard: when that collaborator call fails the exception reaches
`scorePR`'s outer catch and the entire report is replaced by
`getDefaultScore` — every sub-score 50, every threshold verdict false, and
the remaining sub-scores never computed, whatever their inputs would have
been. -/
theorem scorePR_failure_fallback_defaults (w : Weights) (t : Thresholds)
    (m : CodeQualityMetrics) (testingInput : Option TestingMetrics)
    (performanceInput : Option PerformanceMetrics) (securityInput : Option SecurityMetrics)
    (documentationInput : Option DocumentationMetrics) :
    (scorePR w t CodeQualityInput.analysisFailure testingInput performanceInput securityInput
        documentationInput).scores.codeQuality.score = 50 ∧
    (scorePR w t CodeQualityInput.analysisFailure testingInput performanceInput securityInput
        documentationInput).scores.testing = scoreTesting testingInput ∧
    (scorePR w t CodeQualityInput.analysisFailure testingInput performanceInput securityInput
        documentationInput).scores.performance = scorePerformance performanceInput ∧
    (scorePR w t CodeQualityInput.analysisFailure testingInput performanceInput securityInput
        documentationInput).scores.security = scoreSecurity securityInput ∧
    (scorePR w t CodeQualityInput.analysisFailure testingInput performanceInput securityInput
        documentationInput).scores.documentation = scoreDocumentation documentationInput ∧
    (scorePR w t (CodeQualityInput.metrics m) testingInput performanceInput securityInput
        documentationInput).scores.testing = scoreTesting testingInput ∧
    (scorePR w t (CodeQualityInput.metrics m) testingInput performanceInput securityInput
        documentationInput).scores.documentation = scoreDocumentation documentationInput ∧
    (scoreTesting none).score = 60 ∧
    (scorePerformance none).score = 70 ∧
    (scoreSecurity none).score = 80 ∧
    (scoreDocumentation none).score = 60 ∧
    scorePR w t CodeQualityInput.fetchError testingInput performanceInput securityInput
        documentationInput = getDefaultScore := by
  refine ⟨?_, rfl, rfl, rfl, rfl, rfl, rfl, ?_, ?_, ?_, ?_, rfl⟩
  · show clampScore 50 = 50
    with_unfolding_all decide
  all_goals with_unfolding_all decide

/-- Claim C2: on the three-proposal input where #2 carries both label
keywords but #1 and #3 are unrelated to each other, `groupPRsByFeature`
emits the groups `[#1, #2]` and `[#3, #2]`: proposal #2 is a member of two
distinct groups, violating the at-most-one-group invariant (every emitted
group does have at least 2 members).  The member sets of a later group are
collected by `detectRelatedPRs`, which never consults the `processed`
set. -/
theorem groupPRsByFeature_shared_member :
    (groupPRsByFeature groupCexConfig [groupCexPR1, groupCexPR2, groupCexPR3]).map
        (fun g => g.prs.map (fun p => p.number)) = [[1, 2], [3, 2]] := by
  with_unfolding_all decide

/-- Claim C3 (counterexample): two scoring runs on the same configuration and
the same proposal-derived collaborator data, differing only in the value of
the `Math.random()` draw inside `analyzeTestCoverage`, produce different
reports (testing sub-score 30 versus 40). -/
theorem scorePRRun_not_deterministic :
    scorePRRun defaultWeights defaultThresholds detCexData detCexDrawsA ≠
      scorePRRun defaultWeights defaultThresholds detCexData detCexDrawsB := by
  with_unfolding_all decide

/-- Claim C3 (amended): scoring is deterministic only once the values drawn
by the random placeholder metrics are fixed: two evaluations with the same
configuration, the same proposal-derived file data and the same random draws
produce identical reports. -/
theorem scorePRRun_deterministic_in_draws (w : Weights) (t : Thresholds)
    (d : FileDerivedData) (r1 r2 : RandomDraws) (h : r1 = r2) :
    scorePRRun w t d r1 = scorePRRun w t d r2 := by
  rw [h]

/-- Witness for the amended claim C3 at concrete inputs. -/
theorem scorePRRun_deterministic_in_draws_witness :
    scorePRRun defaultWeights defaultThresholds detCexData detCexDrawsA =
      scorePRRun defaultWeights defaultThresholds detCexData detCexDrawsA :=
  scorePRRun_deterministic_in_draws defaultWeights defaultThresholds detCexData
    detCexDrawsA detCexDrawsA rfl

/-- Claim C4: for every configuration whose five (nonnegative) criterion
weights sum to 1 and every five sub-scores each in [0, 100], the weighted
total of `calculateWeightedScore` lies in [0, 100].  (Weights are
nonnegative by the spec's description of the weighted score as a convex
combination.) -/
theorem calculateWeightedScore_mem_Icc (w : Weights) (s : Scores)
    (hw1 : 0 ≤ w.codeQuality) (hw2 : 0 ≤ w.testing) (hw3 : 0 ≤ w.performance)
    (hw4 : 0 ≤ w.security) (hw5 : 0 ≤ w.documentation)
    (hsum : w.codeQuality + w.testing + w.performance + w.security + w.documentation = 1)
    (hs1 : s.codeQuality.score ∈ Set.Icc (0 : ℚ) 100)
    (hs2 : s.testing.score ∈ Set.Icc (0 : ℚ) 100)
    (hs3 : s.performance.score ∈ Set.Icc (0 : ℚ) 100)
    (hs4 : s.security.score ∈ Set.Icc (0 : ℚ) 100)
    (hs5 : s.documentation.score ∈ Set.Icc (0 : ℚ) 100) :
    calculateWeightedScore w s ∈ Set.Icc (0 : ℚ) 100 := by
  obtain ⟨h1l, h1u⟩ := hs1
  obtain ⟨h2l, h2u⟩ := hs2
  obtain ⟨h3l, h3u⟩ := hs3
  obtain ⟨h4l, h4u⟩ := hs4
  obtain ⟨h5l, h5u⟩ := hs5
  unfold calculateWeightedScore
  constructor
  · have t1 := mul_nonneg h1l hw1
    have t2 := mul_nonneg h2l hw2
    have t3 := mul_nonneg h3l hw3
    have t4 := mul_nonneg h4l hw4
    have t5 := mul_nonneg h5l hw5
    linarith
  · have t1 := mul_le_mul_of_nonneg_right h1u hw1
    have t2 := mul_le_mul_of_nonneg_right h2u hw2
    have t3 := mul_le_mul_of_nonneg_right h3u hw3
    have t4 := mul_le_mul_of_nonneg_right h4u hw4
    have t5 := mul_le_mul_of_nonneg_right h5u hw5
    nlinarith [hsum]

/-- Witness for claim C4 at the default weights and a concrete score
record. -/
theorem calculateWeightedScore_mem_Icc_witness :
    calculateWeightedScore defaultWeights boundsWitnessScores ∈ Set.Icc (0 : ℚ) 100 :=
  calculateWeightedScore_mem_Icc defaultWeights boundsWitnessScores
    (by norm_num [defaultWeights]) (by norm_num [defaultWeights])
    (by norm_num [defaultWeights]) (by norm_num [defaultWeights])
    (by norm_num [defaultWeights]) (by norm_num [defaultWeights])
    (by norm_num [boundsWitnessScores]) (by norm_num [boundsWitnessScores])
    (by norm_num [boundsWitnessScores]) (by norm_num [boundsWitnessScores])
    (by norm_num [boundsWitnessScores])

/-- The branch-pattern component of the relation is symmetric. -/
theorem isBranchRelated_comm (patterns : List String) (b1 b2 : String) :
    isBranchRelated patterns b1 b2 = isBranchRelated patterns b2 b1 := by
  unfold isBranchRelated
  congr 1
  funext pat
  rcases h1 : captureAfter pat.data b1.data with _ | f1 <;>
    rcases h2 : captureAfter pat.data b2.data with _ | f2 <;>
      simp [strSimilarity_comm]

/-- The shared-label-keyword component of the relation is symmetric. -/
theorem areLabelsRelated_comm (keywords : List String) (l1 l2 : List String) :
    areLabelsRelated keywords l1 l2 = areLabelsRelated keywords l2 l1 := by
  unfold areLabelsRelated
  show List.any keywords _ = List.any keywords _
  congr 1
  funext k
  exact Bool.and_comm _ _

/-- The title-similarity component of the relation is symmetric. -/
theorem areTitlesRelated_comm (threshold : ℚ) (t1 t2 : String) :
    areTitlesRelated threshold t1 t2 = areTitlesRelated threshold t2 t1 := by
  unfold areTitlesRelated
  rw [strSimilarity_comm]

/-- The file-overlap component of the relation is symmetric. -/
theorem hasFileOverlap_comm (threshold : ℚ) (f1 f2 : Finset String) :
    hasFileOverlap threshold f1 f2 = hasFileOverlap threshold f2 f1 := by
  unfold hasFileOverlap jaccardIndex
  rw [Finset.union_comm, Finset.inter_comm]

/-- Claim C5: the relatedness relation between proposals is symmetric: with
the same configuration (and the labels and changed files carried by the
proposals themselves), `isPRRelated(a, b)` equals `isPRRelated(b, a)`. -/
theorem isPRRelated_symm (cfg : FeatureDetectionConfig) (a b : PR) :
    isPRRelated cfg a b = isPRRelated cfg b a := by
  unfold isPRRelated
  rw [isBranchRelated_comm, areLabelsRelated_comm, areTitlesRelated_comm, hasFileOverlap_comm]

/-- Claim C8: whatever the coverage value, test-file count, passing status
and edge-case count, the testing sub-score computed by `scoreTesting`'s
success path is at most 61 (the capped components 100/30/40/30 blended
0.4/0.2/0.3/0.1), so a testing minimum threshold above 61 — such as the
documented default 70 — can never be met by a normally computed testing
score in `checkThresholds`. -/
theorem scoreTesting_success_le_61 (m : TestingMetrics) (t : Thresholds) (s : Scores)
    (weightedScore : ℚ) (hmin : 61 < t.testingMin)
    (hs : s.testing = scoreTesting (some m)) :
    (scoreTesting (some m)).score ≤ 61 ∧
      (checkThresholds t s weightedScore).testing = false := by
  have hscore : (scoreTesting (some m)).score ≤ 61 := by
    have h1 : min (m.coverage * 1.25) 100 ≤ 100 := min_le_right _ _
    have h2 : min ((m.testFiles : ℚ) * 20) 30 ≤ 30 := min_le_right _ _
    have h3 : (if m.testsPassing then (40 : ℚ) else 0) ≤ 40 := by
      split <;> norm_num
    have h4 : min ((m.edgeCases : ℚ) * 10) 30 ≤ 30 := min_le_right _ _
    have htotal : testingTotal m ≤ 61 := by
      unfold testingTotal
      linarith
    have hmin100 : min (100 : ℚ) (testingTotal m) ≤ 61 :=
      le_trans (min_le_right _ _) htotal
    show clampScore (testingTotal m) ≤ 61
    exact max_le (by norm_num) hmin100
  refine ⟨hscore, ?_⟩
  have : ¬ (t.testingMin ≤ s.testing.score) := by
    rw [hs]
    exact not_le.mpr (lt_of_le_of_lt hscore hmin)
  simp [checkThresholds, this]

/-- Witness for claim C8 at metrics that max out every capped component and
the documented default testing minimum of 70. -/
theorem scoreTesting_success_le_61_witness :
    (scoreTesting (some testingWitnessMetrics)).score ≤ 61 ∧
      (checkThresholds defaultThresholds testingWitnessScores 0).testing = false :=
  scoreTesting_success_le_61 testingWitnessMetrics defaultThresholds testingWitnessScores 0
    (by norm_num [defaultThresholds]) rfl

/-- Claim C9: for two proposals that both have an empty changed-file set, the
overlap fraction of `hasFileOverlap` is the JS division `0/0` (`NaN`,
modelled as `none`), and the relation returns `false` rather than raising an
error, because every JS comparison with `NaN` is false. -/
theorem hasFileOverlap_empty_files (threshold : ℚ) (a b : PR)
    (ha : a.files = []) (hb : b.files = []) :
    jaccardIndex (fileSet a) (fileSet b) = none ∧
      hasFileOverlap threshold (fileSet a) (fileSet b) = false := by
  have ha' : fileSet a = ∅ := by simp [fileSet, ha]
  have hb' : fileSet b = ∅ := by simp [fileSet, hb]
  rw [ha', hb']
  constructor
  · simp [jaccardIndex]
  · simp [hasFileOverlap, jaccardIndex]

/-- Witness for claim C9 at two concrete proposals with no changed files. -/
theorem hasFileOverlap_empty_files_witness :
    jaccardIndex (fileSet emptyFilesPR1) (fileSet emptyFilesPR2) = none ∧
      hasFileOverlap 0.3 (fileSet emptyFilesPR1) (fileSet emptyFilesPR2) = false :=
  hasFileOverlap_empty_files 0.3 emptyFilesPR1 emptyFilesPR2 rfl rfl

/-- Claim C10: `areSimilarBlocks` holds exactly when both blocks are at least
50 characters long and their word-overlap similarity exceeds 0.7; in
particular a pair with either block shorter than 50 characters is never
counted as a duplication by `detectDuplication`'s pair loop, however high
the similarity. -/
theorem areSimilarBlocks_iff (b1 b2 : String) :
    areSimilarBlocks b1 b2 = true ↔
      50 ≤ b1.length ∧ 50 ≤ b2.length ∧
        ∃ r, wordOverlapFraction b1 b2 = some r ∧ (0.7 : ℚ) < r := by
  unfold areSimilarBlocks
  by_cases hshort : b1.length < 50 ∨ b2.length < 50
  · simp only [if_pos hshort]
    constructor
    · intro h
      exact absurd h (by simp)
    · rintro ⟨h1, h2, -⟩
      rcases hshort with h | h
      · exact absurd h1 (not_le.mpr h)
      · exact absurd h2 (not_le.mpr h)
  · push_neg at hshort
    simp only [if_neg (by push_neg; exact hshort :
      ¬ (b1.length < 50 ∨ b2.length < 50))]
    rcases hr : wordOverlapFraction b1 b2 with _ | r
    · simp [hshort.1, hshort.2]
    · simp [hshort.1, hshort.2, decide_eq_true_eq]

/-- Claim C7: the ranking of `rankSnippets` is sorted primarily by quality
score descending and, on equal scores, by integration complexity ascending
(the comparator `snippetBefore`), it is a permutation of the candidate list,
and `extractSuperiorSnippets` returns precisely the (at most 10)-element
prefix of that order, which is itself sorted. -/
theorem extractSuperiorSnippets_spec (candidateSnippets : List Snippet) :
    List.Sorted snippetBefore (rankSnippets candidateSnippets) ∧
      (rankSnippets candidateSnippets).Perm candidateSnippets ∧
      extractSuperiorSnippets candidateSnippets = (rankSnippets candidateSnippets).take 10 ∧
      (extractSuperiorSnippets candidateSnippets).length ≤ 10 ∧
      List.Sorted snippetBefore (extractSuperiorSnippets candidateSnippets) := by
  refine ⟨List.sorted_insertionSort snippetBefore candidateSnippets,
    List.perm_insertionSort snippetBefore candidateSnippets, rfl, ?_, ?_⟩
  · exact List.length_take_le 10 _
  · exact List.Pairwise.sublist (List.take_sublist 10 _)
      (List.sorted_insertionSort snippetBefore candidateSnippets)

/-- Claim C6: a (losing block, winning block) pair of added-line change
regions of a file changed in both the winner and a loser yields an
`improvement` snippet if and only if the blocks come from the respective
patches, their normalized similarity lies strictly between 0.3 and 0.8, and
the quality-heuristic score of the losing block exceeds 75.  In particular a
losing block with similarity at least 0.8 to the winning block is never
kept. -/
theorem compareFileImplementations_mem_iff (winningPatch losingPatch : Option String)
    (filename : String) (losingPRNumber : ℕ) (lc wc : Change) :
    (∃ s ∈ compareFileImplementations winningPatch losingPatch filename losingPRNumber,
        s.kind = SnippetKind.improvement ∧ s.snippet = lc ∧ s.winningAlternative = some wc) ↔
      lc ∈ extractCodeChanges losingPatch ∧ wc ∈ extractCodeChanges winningPatch ∧
        (0.3 : ℚ) < calculateCodeSimilarity wc.code lc.code ∧
        calculateCodeSimilarity wc.code lc.code < (0.8 : ℚ) ∧
        (75 : ℚ) < (evaluateSnippetQuality lc.code).score := by
  unfold compareFileImplementations findSimilarChangeRegions
  constructor
  · rintro ⟨s, hs, -, hsnip, hwin⟩
    rw [List.mem_filterMap] at hs
    obtain ⟨comparison, hcomp, hmk⟩ := hs
    rw [List.mem_flatMap] at hcomp
    obtain ⟨losingChange, hlc, hwc⟩ := hcomp
    rw [List.mem_filterMap] at hwc
    obtain ⟨winningChange, hwcmem, hpair⟩ := hwc
    by_cases hsim : (0.3 : ℚ) < calculateCodeSimilarity winningChange.code losingChange.code ∧
        calculateCodeSimilarity winningChange.code losingChange.code < (0.8 : ℚ)
    · rw [if_pos hsim] at hpair
      injection hpair with hpair
      subst hpair
      by_cases hq : (75 : ℚ) < (evaluateSnippetQuality losingChange.code).score
      · rw [if_pos hq] at hmk
        injection hmk with hmk
        subst hmk
        obtain rfl : losingChange = lc := hsnip
        obtain rfl : winningChange = wc := by injection hwin
        exact ⟨hlc, hwcmem, hsim.1, hsim.2, hq⟩
      · rw [if_neg hq] at hmk
        exact Option.noConfusion hmk
    · rw [if_neg hsim] at hpair
      exact Option.noConfusion hpair
  · rintro ⟨hlc, hwc, hsim1, hsim2, hq⟩
    refine ⟨_, List.mem_filterMap.mpr
      ⟨Comparison.mk wc lc (calculateCodeSimilarity wc.code lc.code),
        List.mem_flatMap.mpr ⟨lc, hlc, List.mem_filterMap.mpr
          ⟨wc, hwc, by rw [if_pos ⟨hsim1, hsim2⟩]⟩⟩,
        by rw [if_pos hq]⟩, rfl, rfl, rfl⟩

end AIWorkflow
